import Mathlib

/-!
Verification development for the jurni-backend conversational session and
structured-data extraction engine (src/app/services/adk_travel_planner_service.py
and src/app/services/response_parser.py).

The dynamic Python value universe is modelled by the mutual inductive family
PVal / PArr / PMap below: None, bool, int, str, bytes, list, tuple, dict with
string keys, plus objects exposing a model_dump method, a dict method, or a
plain attribute dictionary, and finally fully opaque objects carrying only
their str() rendering.  Floating point numbers are outside the modelled
universe.  Dictionary keys are modelled as strings (the shapes this service
manipulates are JSON-like).
-/

set_option linter.unusedVariables false

mutual

inductive PVal : Type where
  | vnone : PVal
  | vbool : Bool → PVal
  | vint : Int → PVal
  | vstr : String → PVal
  | vbytes : List Nat → PVal
  | vlist : PArr → PVal
  | vtuple : PArr → PVal
  | vdict : PMap → PVal
  | vobjModelDump : PVal → String → PVal
  | vobjDict : PVal → String → PVal
  | vobjDunder : PMap → String → PVal
  | vother : String → PVal
  deriving DecidableEq

inductive PArr : Type where
  | anil : PArr
  | acons : PVal → PArr → PArr
  deriving DecidableEq

inductive PMap : Type where
  | mnil : PMap
  | mcons : String → PVal → PMap → PMap
  deriving DecidableEq

end

open PVal PArr PMap

/-- Build a PArr from a Lean list. -/
def parrOf : List PVal → PArr
  | [] => anil
  | x :: xs => acons x (parrOf xs)

/-- Flatten a PArr back to a Lean list. -/
def arrList : PArr → List PVal
  | anil => []
  | acons x xs => x :: arrList xs

/-- Build a PMap from a Lean association list (first binding wins on lookup). -/
def pmapOf : List (String × PVal) → PMap
  | [] => mnil
  | (k, v) :: t => mcons k v (pmapOf t)

/-- Dictionary lookup, first binding wins. -/
def pmapFind : PMap → String → Option PVal
  | mnil, _ => none
  | mcons k v t, key => if k == key then some v else pmapFind t key

/-- Python `key in dict`. -/
def pmapHasKey (m : PMap) (key : String) : Bool :=
  (pmapFind m key).isSome

/-- Python `dict.get(key, default)`. -/
def pmapGetD (m : PMap) (key : String) (dflt : PVal) : PVal :=
  (pmapFind m key).getD dflt

/-- Python truthiness of a value. Objects are truthy by default. -/
def pyTruthy : PVal → Bool
  | vnone => false
  | vbool b => b
  | vint n => n != 0
  | vstr s => s != ""
  | vbytes bs => !bs.isEmpty
  | vlist anil => false
  | vlist (acons _ _) => true
  | vtuple anil => false
  | vtuple (acons _ _) => true
  | vdict mnil => false
  | vdict (mcons _ _ _) => true
  | vobjModelDump _ _ => true
  | vobjDict _ _ => true
  | vobjDunder _ _ => true
  | vother _ => true

/-- Number of bindings in a PMap (used by dictionary equality). -/
def pyEqMapLen : PMap → Nat
  | mnil => 0
  | mcons _ _ t => pyEqMapLen t + 1

mutual

/-- Python equality (==).  Bool and int compare across types as in Python
(True == 1); dictionaries compare as key/value sets; objects without an
eq method compare by identity, conservatively modelled as never equal. -/
def pyEq : PVal → PVal → Bool
  | vnone, vnone => true
  | vbool a, vbool b => a == b
  | vbool a, vint n => (if a then (1 : Int) else 0) == n
  | vint n, vbool a => n == (if a then (1 : Int) else 0)
  | vint a, vint b => a == b
  | vstr a, vstr b => a == b
  | vbytes a, vbytes b => a == b
  | vlist a, vlist b => pyEqArr a b
  | vtuple a, vtuple b => pyEqArr a b
  | vdict a, vdict b => pyEqMapLen a == pyEqMapLen b && pyEqMapSub a b
  | _, _ => false

def pyEqArr : PArr → PArr → Bool
  | anil, anil => true
  | acons x xs, acons y ys => pyEq x y && pyEqArr xs ys
  | _, _ => false

def pyEqMapSub : PMap → PMap → Bool
  | mnil, _ => true
  | mcons k v t, b =>
    (match pmapFind b k with
     | some w => pyEq v w
     | none => false) && pyEqMapSub t b

end

/-- Lowercasing as used on the ASCII keyword sets. -/
def lowerStr (s : String) : String := String.mk (s.data.map Char.toLower)

/-- needle appears as a prefix of hay. -/
def listPrefixEq : List Char → List Char → Bool
  | [], _ => true
  | _ :: _, [] => false
  | a :: as, b :: bs => a == b && listPrefixEq as bs

/-- needle appears as a contiguous sublist of hay. -/
def subListIn (n : List Char) : List Char → Bool
  | [] => n.isEmpty
  | c :: t => listPrefixEq n (c :: t) || subListIn n t

/-- Python `needle in hay` for strings (substring containment). -/
def pyInStr (needle hay : String) : Bool := subListIn needle.data hay.data

/-- Membership of a string item in a PArr under Python equality. -/
def arrAnyEqStr : PArr → String → Bool
  | anil, _ => false
  | acons x xs, k => pyEq (vstr k) x || arrAnyEqStr xs k

/-- Python `item in value` for a string item; none models a TypeError
(membership test on a non-container). -/
def pyContains (key : String) : PVal → Option Bool
  | vdict m => some (pmapHasKey m key)
  | vstr s => some (pyInStr key s)
  | vlist a => some (arrAnyEqStr a key)
  | vtuple a => some (arrAnyEqStr a key)
  | _ => none

/-- Decimal rendering of an integer, matching Python str() on int. -/
def intStr (n : Int) : String := toString n

mutual

/-- Python str() of a value.  Objects carry their str() rendering in their
last constructor argument. -/
def pyStr : PVal → String
  | vnone => "None"
  | vbool true => "True"
  | vbool false => "False"
  | vint n => intStr n
  | vstr s => s
  | vbytes bs => pyRepr (vbytes bs)
  | vlist a => pyRepr (vlist a)
  | vtuple a => pyRepr (vtuple a)
  | vdict m => pyRepr (vdict m)
  | vobjModelDump _ s => s
  | vobjDict _ s => s
  | vobjDunder _ s => s
  | vother s => s

/-- Python repr() of a value (used by str() on containers). -/
def pyRepr : PVal → String
  | vnone => "None"
  | vbool true => "True"
  | vbool false => "False"
  | vint n => intStr n
  | vstr s => "\x27" ++ s ++ "\x27"
  | vbytes bs => "b\x27" ++ String.mk (bs.map (fun b => Char.ofNat (b % 256))) ++ "\x27"
  | vlist a => "[" ++ pyReprArr a ++ "]"
  | vtuple anil => "()"
  | vtuple (acons x anil) => "(" ++ pyRepr x ++ ",)"
  | vtuple (acons x xs) => "(" ++ pyRepr x ++ ", " ++ pyReprArr xs ++ ")"
  | vdict m => "\x7b" ++ pyReprMap m ++ "\x7d"
  | vobjModelDump _ s => s
  | vobjDict _ s => s
  | vobjDunder _ s => s
  | vother s => s

def pyReprArr : PArr → String
  | anil => ""
  | acons x anil => pyRepr x
  | acons x xs => pyRepr x ++ ", " ++ pyReprArr xs

def pyReprMap : PMap → String
  | mnil => ""
  | mcons k v mnil => "\x27" ++ k ++ "\x27: " ++ pyRepr v
  | mcons k v t => "\x27" ++ k ++ "\x27: " ++ pyRepr v ++ ", " ++ pyReprMap t

end

/-- The base64 alphabet. -/
def b64Alphabet : List Char :=
  "ABCDEFGHIJKLMNOPQRSTUVWXYZabcdefghijklmnopqrstuvwxyz0123456789+/".data

/-- One base64 digit. -/
def b64Char (n : Nat) : Char := b64Alphabet.getD n "A".head

/-- base64.b64encode over a byte list, with standard padding. -/
def base64Chars : List Nat → List Char
  | [] => []
  | [a] =>
    let a := a % 256
    [b64Char (a / 4), b64Char (a % 4 * 16), "=".head, "=".head]
  | [a, b] =>
    let a := a % 256
    let b := b % 256
    [b64Char (a / 4), b64Char (a % 4 * 16 + b / 16), b64Char (b % 16 * 4), "=".head]
  | a :: b :: c :: rest =>
    let a := a % 256
    let b := b % 256
    let c := c % 256
    b64Char (a / 4) :: b64Char (a % 4 * 16 + b / 16) ::
      b64Char (b % 16 * 4 + c / 64) :: b64Char (c % 64) :: base64Chars rest

/-- base64.b64encode(...).decode of a byte string. -/
def base64Encode (bs : List Nat) : String := String.mk (base64Chars bs)

/-- JSON whitespace skipping. -/
def skipWs : List Char → List Char
  | c :: t => if c == ' ' || c == '\t' || c == '\n' || c == '\r' then skipWs t else c :: t
  | [] => []

/-- The JSON two-character escape table, escape letter paired with the
character it denotes. -/
def jsonEscapeTable : List (Char × Char) :=
  [('"', '"'), ('\\', '\\'), ('/', '/'), ('n', '\n'), ('t', '\t'),
   ('r', '\x0d'), ('b', '\x08'), ('f', '\x0c')]

/-- One JSON string escape, by table lookup. -/
def jsonEscape (c : Char) : Option Char :=
  (jsonEscapeTable.find? (fun pr => pr.1 == c)).map Prod.snd

/-- Parse the remainder of a JSON string literal (after the opening quote).
Unicode escapes are outside the modelled universe. -/
def parseStrBody : List Char → List Char → Option (String × List Char)
  | [], _ => none
  | '"' :: rest, acc => some (String.mk acc.reverse, rest)
  | '\\' :: e :: rest, acc =>
    match jsonEscape e with
    | some ch => parseStrBody rest (ch :: acc)
    | none => none
  | c :: rest, acc => parseStrBody rest (c :: acc)

/-- Digit test. -/
def isDigitCh (c : Char) : Bool := '0' ≤ c && c ≤ '9'

/-- Collect leading digits. -/
def takeDigits : List Char → List Char × List Char
  | c :: t =>
    if isDigitCh c then
      let (ds, rest) := takeDigits t
      (c :: ds, rest)
    else ([], c :: t)
  | [] => ([], [])

/-- Digits to Nat. -/
def digitsVal : List Char → Nat
  | [] => 0
  | c :: t => digitsVal t + c.toNat % 48 * 10 ^ t.length

/-- Parse a JSON integer literal; fractions and exponents are outside the
modelled universe, and leading zeros are rejected as in Python json. -/
def parseIntLit (cs : List Char) : Option (PVal × List Char) :=
  let (neg, cs2) := match cs with
    | '-' :: t => (true, t)
    | _ => (false, cs)
  let (ds, rest) := takeDigits cs2
  match ds with
  | [] => none
  | d0 :: dtail =>
    if d0 == '0' && !dtail.isEmpty then none
    else
      match rest with
      | c :: _ => if c == '.' || c == 'e' || c == 'E' then none else
          some (vint (if neg then -(digitsVal ds : Int) else (digitsVal ds : Int)), rest)
      | [] => some (vint (if neg then -(digitsVal ds : Int) else (digitsVal ds : Int)), rest)

/-- Expect a literal word. -/
def expectWord : List Char → List Char → Option (List Char)
  | [], rest => some rest
  | w :: ws, c :: t => if w == c then expectWord ws t else none
  | _ :: _, [] => none

/-- Replace-or-append insertion, matching Python dict construction where a
repeated key keeps its first position but takes the last value. -/
def jsonInsert : PMap → String → PVal → PMap
  | mnil, k, v => mcons k v mnil
  | mcons k0 v0 t, k, v =>
    if k0 == k then mcons k0 v t else mcons k0 v0 (jsonInsert t k v)

mutual

/-- Parse one JSON value (fuel-indexed). -/
def parseVal : Nat → List Char → Option (PVal × List Char)
  | 0, _ => none
  | Nat.succ f, cs =>
    match skipWs cs with
    | [] => none
    | c :: rest =>
      if c == '"' then
        match parseStrBody rest [] with
        | some (s, r) => some (vstr s, r)
        | none => none
      else if c == '\x7b' then parseObjBody f rest mnil true
      else if c == '[' then parseArrBody f rest [] true
      else if c == 't' then
        match expectWord "rue".data rest with
        | some r => some (vbool true, r)
        | none => none
      else if c == 'f' then
        match expectWord "alse".data rest with
        | some r => some (vbool false, r)
        | none => none
      else if c == 'n' then
        match expectWord "ull".data rest with
        | some r => some (vnone, r)
        | none => none
      else if c == '-' || isDigitCh c then parseIntLit (c :: rest)
      else none

/-- Parse object members after the opening brace; first is true before the
first member. -/
def parseObjBody : Nat → List Char → PMap → Bool → Option (PVal × List Char)
  | 0, _, _, _ => none
  | Nat.succ f, cs, acc, first =>
    match skipWs cs with
    | [] => none
    | c :: rest =>
      if c == '\x7d' && first then some (vdict acc, rest)
      else
        let cs2 := if first then c :: rest else
          if c == ',' then rest else []
        if !first && c != ',' && c != '\x7d' then none
        else if !first && c == '\x7d' then some (vdict acc, rest)
        else
          match skipWs cs2 with
          | '"' :: r1 =>
            match parseStrBody r1 [] with
            | some (k, r2) =>
              match skipWs r2 with
              | ':' :: r3 =>
                match parseVal f r3 with
                | some (v, r4) => parseObjBody f r4 (jsonInsert acc k v) false
                | none => none
              | _ => none
            | none => none
          | _ => none

/-- Parse array items after the opening bracket. -/
def parseArrBody : Nat → List Char → List PVal → Bool → Option (PVal × List Char)
  | 0, _, _, _ => none
  | Nat.succ f, cs, acc, first =>
    match skipWs cs with
    | [] => none
    | c :: rest =>
      if c == ']' && first then some (vlist (parrOf acc.reverse), rest)
      else if !first && c == ']' then some (vlist (parrOf acc.reverse), rest)
      else if !first && c != ',' then none
      else
        let cs2 := if first then c :: rest else rest
        match parseVal f cs2 with
        | some (v, r) => parseArrBody f r (v :: acc) false
        | none => none

end

/-- json.loads on the modelled universe: parse one value and require only
whitespace to remain. -/
def jsonParse (s : String) : Option PVal :=
  match parseVal (s.length + 1) s.data with
  | some (v, rest) => if (skipWs rest).isEmpty then some v else none
  | none => none

/-- ADKTravelPlannerService._is_json_string. -/
def isJsonString (s : String) : Bool := (jsonParse s).isSome

mutual

/-- ADKTravelPlannerService._make_json_serializable.  The isinstance chain of
the source maps onto the disjoint constructors: None and primitives pass
through, bytes are base64 encoded, lists and tuples convert element-wise into
lists, dicts convert value-wise, objects are unwrapped through model_dump,
dict or their attribute dictionary, and anything else falls back to str(). -/
def makeJsonSerializable : PVal → PVal
  | vnone => vnone
  | vbool b => vbool b
  | vint n => vint n
  | vstr s => vstr s
  | vbytes bs => vstr (base64Encode bs)
  | vlist xs => vlist (mjsArr xs)
  | vtuple xs => vlist (mjsArr xs)
  | vdict kvs => vdict (mjsMap kvs)
  | vobjModelDump d _ => makeJsonSerializable d
  | vobjDict d _ => makeJsonSerializable d
  | vobjDunder kvs _ => vdict (mjsMap kvs)
  | vother s => vstr s

def mjsArr : PArr → PArr
  | anil => anil
  | acons x xs => acons (makeJsonSerializable x) (mjsArr xs)

def mjsMap : PMap → PMap
  | mnil => mnil
  | mcons k v t => mcons k (makeJsonSerializable v) (mjsMap t)

end

mutual

/-- A value json.dumps accepts: None, bool, int, str, and lists, tuples and
string-keyed dicts thereof.  Bytes and arbitrary objects are rejected. -/
def isJsonSafe : PVal → Bool
  | vnone => true
  | vbool _ => true
  | vint _ => true
  | vstr _ => true
  | vbytes _ => false
  | vlist xs => isJsonSafeArr xs
  | vtuple xs => isJsonSafeArr xs
  | vdict kvs => isJsonSafeMap kvs
  | vobjModelDump _ _ => false
  | vobjDict _ _ => false
  | vobjDunder _ _ => false
  | vother _ => false

def isJsonSafeArr : PArr → Bool
  | anil => true
  | acons x xs => isJsonSafe x && isJsonSafeArr xs

def isJsonSafeMap : PMap → Bool
  | mnil => true
  | mcons _ v t => isJsonSafe v && isJsonSafeMap t

end

/-- The uniform wire event dictionary.  Field etype models the "type" key;
partFlag and turnFlag model the "partial" and "turn_complete" keys. -/
structure EventDict where
  timestamp : PVal
  author : String
  etype : String
  content : Option PVal := none
  structuredData : Option PVal := none
  dataType : Option String := none
  functionCalls : Option PVal := none
  functionResponses : Option PVal := none
  finalFlag : Option Bool := none
  errorFlag : Option Bool := none
  message : Option String := none
  partFlag : Option Bool := none
  turnFlag : Option Bool := none
  deriving DecidableEq

/-- The data-type detection shared by all three classification sites: set
data_type only when the data items form a non-empty list whose first record
is a dict, keyed on flightNumber then pricePerNight. -/
def detectDataType (dataItems : PVal) (d : EventDict) : EventDict :=
  match dataItems with
  | vlist (acons first _) =>
    match first with
    | vdict fkvs =>
      if pmapHasKey fkvs "flightNumber" then { d with dataType := some "flights" }
      else if pmapHasKey fkvs "pricePerNight" then { d with dataType := some "hotels" }
      else d
    | _ => d
  | _ => d

/-- The scan of message parts in _check_for_structured_data.  Each part that
is a dict with a str "text" whose text parses as JSON is checked for a
"data" member.  A membership test on a non-container raises TypeError and a
.get on a non-dict raises AttributeError; neither is caught by the
JSONDecodeError handler, so the loop stops there with the mutations made so
far kept (the caller catches the exception). -/
def partsScan : List PVal → EventDict → EventDict
  | [], d => d
  | p :: rest, d =>
    match p with
    | vdict pkvs =>
      match pmapFind pkvs "text" with
      | some (vstr s) =>
        match jsonParse s with
        | some sd =>
          match pyContains "data" sd with
          | some true =>
            let d1 := { d with structuredData := some sd, etype := "structured_response" }
            match sd with
            | vdict skvs => partsScan rest (detectDataType (pmapGetD skvs "data" (vlist anil)) d1)
            | _ => d1
          | some false => partsScan rest d
          | none => d
        | none => partsScan rest d
      | _ => partsScan rest d
    | _ => partsScan rest d

/-- Iterating `for part in x`: lists and tuples yield their elements; any
other value either yields no dict part (strings yield characters, dicts
yield their string keys) or raises before any mutation, so it contributes
nothing to the scan. -/
def iterParts : PVal → List PVal
  | vlist a => arrList a
  | vtuple a => arrList a
  | _ => []

/-- ADKTravelPlannerService._check_for_structured_data. -/
def checkForStructuredData (content : PVal) (d : EventDict) : EventDict :=
  match content with
  | vdict kvs =>
    if pmapHasKey kvs "data" then
      let d1 := { d with structuredData := some content, etype := "structured_response" }
      detectDataType (pmapGetD kvs "data" (vlist anil)) d1
    else if pmapHasKey kvs "parts" then
      partsScan (iterParts (pmapGetD kvs "parts" (vlist anil))) d
    else d
  | _ => d

/-- The function-response scan in _convert_adk_event_to_dict: each serialized
response that is a dict with a "response" member that is itself a dict with a
"data" member reclassifies the event as structured. -/
def respScan : List PVal → EventDict → EventDict
  | [], d => d
  | r :: rest, d =>
    match r with
    | vdict rkvs =>
      match pmapFind rkvs "response" with
      | some (vdict dkvs) =>
        if pmapHasKey dkvs "data" then
          let d1 := { d with structuredData := some (vdict dkvs), etype := "structured_response" }
          respScan rest (detectDataType (pmapGetD dkvs "data" (vlist anil)) d1)
        else respScan rest d
      | _ => respScan rest d
    | _ => respScan rest d

/-- One native agent-runtime event, reduced to the capability surface the
translator accesses.  Option none models an absent or None attribute; an
Except.error on an accessor models that accessor raising (each access site is
wrapped in its own try/except in the source). -/
structure NativeEvent where
  author : Option String := none
  timestamp : Option PVal := none
  content : Option PVal := none
  functionCalls : Except Unit (List PVal) := Except.ok []
  functionResponses : Except Unit (List PVal) := Except.ok []
  isFinalResp : Except Unit Bool := Except.ok false
  errorMessage : Option String := none
  partFlag : Bool := false
  turnFlag : Bool := false

/-- Translator step: copy a truthy author. -/
def stepAuthor (e : NativeEvent) (d : EventDict) : EventDict :=
  match e.author with
  | some a => if a != "" then { d with author := a } else d
  | none => d

/-- Translator step: copy a truthy timestamp. -/
def stepTimestamp (e : NativeEvent) (d : EventDict) : EventDict :=
  match e.timestamp with
  | some t => if pyTruthy t then { d with timestamp := t } else d
  | none => d

/-- Translator step: convert truthy content to a JSON-safe value, attach it,
and run the structured-data check on it. -/
def stepContent (e : NativeEvent) (d : EventDict) : EventDict :=
  match e.content with
  | some c =>
    if pyTruthy c then
      checkForStructuredData (makeJsonSerializable c)
        { d with content := some (makeJsonSerializable c) }
    else d
  | none => d

/-- Translator step: attach non-empty function calls. -/
def stepFunctionCalls (e : NativeEvent) (d : EventDict) : EventDict :=
  match e.functionCalls with
  | Except.ok fcs =>
    if fcs.isEmpty then d
    else { d with functionCalls := some (makeJsonSerializable (vlist (parrOf fcs))),
                  etype := "function_call" }
  | Except.error _ => d

/-- Translator step: attach non-empty function responses and scan them for
embedded structured data. -/
def stepFunctionResponses (e : NativeEvent) (d : EventDict) : EventDict :=
  match e.functionResponses with
  | Except.ok frs =>
    if frs.isEmpty then d
    else
      respScan (arrList (mjsArr (parrOf frs)))
        { d with functionResponses := some (makeJsonSerializable (vlist (parrOf frs))),
                 etype := "function_response" }
  | Except.error _ => d

/-- Translator step: mark a final response. -/
def stepFinal (e : NativeEvent) (d : EventDict) : EventDict :=
  match e.isFinalResp with
  | Except.ok true => { d with etype := "final_response", finalFlag := some true }
  | _ => d

/-- Translator step: surface a truthy error message. -/
def stepError (e : NativeEvent) (d : EventDict) : EventDict :=
  match e.errorMessage with
  | some m =>
    if m != "" then { d with errorFlag := some true, message := some m, etype := "error" }
    else d
  | none => d

/-- Translator step: copy the partial and turn_complete flags. -/
def stepFlags (e : NativeEvent) (d : EventDict) : EventDict :=
  let d2 := if e.partFlag then { d with partFlag := some true } else d
  if e.turnFlag then { d2 with turnFlag := some true } else d2

/-- ADKTravelPlannerService._convert_adk_event_to_dict before its final
JSON-serialization pass: the defaults followed by each guarded step of the
source, in source order. -/
def convertCore (e : NativeEvent) (now : String) : EventDict :=
  stepFlags e (stepError e (stepFinal e (stepFunctionResponses e (stepFunctionCalls e
    (stepContent e (stepTimestamp e (stepAuthor e
      { timestamp := vstr now, author := "system", etype := "agent_message" })))))))

/-- The final defensive pass: _make_json_serializable over the whole event
dict.  String and boolean values pass through that conversion unchanged, so
only the PVal-valued fields are transformed. -/
def serializeFinal (d : EventDict) : EventDict :=
  { d with timestamp := makeJsonSerializable d.timestamp,
           content := d.content.map makeJsonSerializable,
           structuredData := d.structuredData.map makeJsonSerializable,
           functionCalls := d.functionCalls.map makeJsonSerializable,
           functionResponses := d.functionResponses.map makeJsonSerializable }

/-- ADKTravelPlannerService._convert_adk_event_to_dict. -/
def convertAdkEventToDict (e : NativeEvent) (now : String) : EventDict :=
  serializeFinal (convertCore e now)

/-- Optional field of the emitted JSON object. -/
def optField (k : String) : Option PVal → List (String × PVal)
  | some v => [(k, v)]
  | none => []

/-- The wire event as the JSON object actually emitted. -/
def eventDictJson (d : EventDict) : PVal :=
  vdict (pmapOf (
    [("timestamp", d.timestamp), ("author", vstr d.author), ("type", vstr d.etype)]
    ++ optField "content" d.content
    ++ optField "structured_data" d.structuredData
    ++ optField "data_type" (d.dataType.map vstr)
    ++ optField "function_calls" d.functionCalls
    ++ optField "function_responses" d.functionResponses
    ++ optField "final" (d.finalFlag.map vbool)
    ++ optField "error" (d.errorFlag.map vbool)
    ++ optField "message" (d.message.map vstr)
    ++ optField "partial" (d.partFlag.map vbool)
    ++ optField "turn_complete" (d.turnFlag.map vbool)))

/-- The per-event body of the send_message loop: accumulate every converted
event, remember the latest structured_response carrying structured_data, and
yield either every event or only structured_response events depending on
structured_only. -/
def sendLoop (structuredOnly : Bool) (now : String) :
    List EventDict → Option EventDict → List EventDict → List NativeEvent →
    List EventDict × Option EventDict × List EventDict
  | evs, found, ys, [] => (evs, found, ys)
  | evs, found, ys, e :: rest =>
    let d := convertAdkEventToDict e now
    let evs2 := evs ++ [d]
    let found2 := if d.etype == "structured_response" && d.structuredData.isSome then some d else found
    let ys2 :=
      if structuredOnly then
        if d.etype == "structured_response" then ys ++ [d] else ys
      else ys ++ [d]
    sendLoop structuredOnly now evs2 found2 ys2 rest

/-- The terminal error event built in the except branch of send_message. -/
def mkErrorEvent (msg now : String) : EventDict :=
  { etype := "error", errorFlag := some true,
    message := some ("Agent execution error: " ++ msg),
    author := "system", timestamp := vstr now }

/-- The synthesized fallback event of send_message: the latest recorded
event's content is unwrapped through model_dump or dict when available and
otherwise rendered with str(). -/
def fallbackEvent (content : PVal) (now : String) : EventDict :=
  let c := match content with
    | vobjModelDump dmp _ => dmp
    | vobjDict dmp _ => dmp
    | other => vstr (pyStr other)
  { etype := "agent_message", author := "root_agent", content := some c,
    timestamp := vstr now }

/-- ADKTravelPlannerService.send_message over one turn.  registered models
whether session_id is a key of self.sessions; stream is the native event
sequence the runtime yields this turn, and streamErr (when some) is an
exception the runtime raises after that; sessionEvents holds the content
attribute of each recorded event of the session.  The result is the list of
yielded wire events, or Except.error for the unregistered-session
ValueError, which is raised before the try block. -/
def sendMessage (registered : Bool) (sessionId : String) (stream : List NativeEvent)
    (streamErr : Option String) (sessionEvents : List PVal)
    (structuredOnly : Bool) (now : String) : Except String (List EventDict) :=
  if registered then
    let r := sendLoop structuredOnly now [] none [] stream
    let evs := r.1
    let found := r.2.1
    let ys := r.2.2
    match streamErr with
    | some msg => Except.ok (ys ++ [mkErrorEvent msg now])
    | none =>
      let fallbackPart :=
        if evs.isEmpty then
          match sessionEvents.getLast? with
          | some contentV => Except.ok (ys ++ [fallbackEvent contentV now])
          | none => Except.ok ys
        else Except.ok ys
      if structuredOnly then
        match found with
        | some f => Except.ok (ys ++ [f])
        | none => fallbackPart
      else fallbackPart
  else Except.error ("Session " ++ sessionId ++ " not found")

/-- The in-memory session registry: the sessions dict (keys paired with the
native handle the runtime returned), a counter producing fresh native
handles, and the number of create_session calls made to the runtime. -/
structure RegistryState where
  sessions : List (String × Nat)
  nextHandle : Nat
  runtimeCalls : Nat
  deriving DecidableEq

/-- The response dictionary of create_or_get_session. -/
structure SessionInfo where
  sid : String
  status : String
  createdAt : String
  deriving DecidableEq

/-- ADKTravelPlannerService.create_or_get_session.  A missing or falsy
session_id is synthesized from the user id and current timestamp; an unknown
key asks the runtime for a native session and registers it; a known key is
returned as-is without touching the registry or the runtime. -/
def createOrGetSession (st : RegistryState) (userId : String)
    (sessionId : Option String) (nowTs : Nat) (nowIso : String) :
    RegistryState × SessionInfo :=
  let sid := match sessionId with
    | some s => if s == "" then "session_" ++ userId ++ "_" ++ toString nowTs else s
    | none => "session_" ++ userId ++ "_" ++ toString nowTs
  if (st.sessions.map Prod.fst).contains sid then
    (st, { sid := sid, status := "active", createdAt := nowIso })
  else
    ({ sessions := st.sessions ++ [(sid, st.nextHandle)],
       nextHandle := st.nextHandle + 1,
       runtimeCalls := st.runtimeCalls + 1 },
     { sid := sid, status := "active", createdAt := nowIso })

/-- existing_trips or [] -/
def tripsOrEmpty : Option (List PVal) → List PVal
  | some ts => if ts.isEmpty then [] else ts
  | none => []

/-- The user_context dictionary built by initialize_session_with_user_data. -/
def initialUserContext (profile : PMap) (existingTrips : Option (List PVal))
    (now : String) : PMap :=
  pmapOf [
    ("user_profile", vdict (pmapOf [
      ("email", pmapGetD profile "email" vnone),
      ("display_name", pmapGetD profile "display_name" (pmapGetD profile "first_name" (vstr ""))),
      ("first_name", pmapGetD profile "first_name" (vstr "")),
      ("last_name", pmapGetD profile "last_name" (vstr "")),
      ("passport_nationality", pmapGetD profile "passport_nationality" (vstr "US")),
      ("home", vdict (pmapOf [
        ("address", pmapGetD profile "address" (vstr "Default Address")),
        ("local_prefer_mode", pmapGetD profile "preferred_transport" (vstr "driving"))])),
      ("preferences", vdict (pmapOf [
        ("previous_trips", vlist (parrOf (tripsOrEmpty existingTrips))),
        ("travel_style", pmapGetD profile "travel_style" (vstr "adventure")),
        ("budget_range", pmapGetD profile "budget_range" (vstr "moderate"))]))])),
    ("itinerary", vdict mnil),
    ("system_time", vstr now)]

/-- ADKTravelPlannerService.initialize_session_with_user_data: ValueError for
an unregistered key, otherwise the built user_context (which is also written
key by key into the session state). -/
def initializeSession (registered : Bool) (sessionId : String) (profile : PMap)
    (existingTrips : Option (List PVal)) (now : String) : Except String PMap :=
  if registered then Except.ok (initialUserContext profile existingTrips now)
  else Except.error ("Session " ++ sessionId ++ " not found")

/-- Dictionary assignment state[k] = v. -/
def dictSet : PMap → String → PVal → PMap
  | mnil, k, v => mcons k v mnil
  | mcons k0 v0 t, k, v =>
    if k0 == k then mcons k0 v t else mcons k0 v0 (dictSet t k v)

/-- The session-state writes of initialize_session_with_user_data: each
user_context entry is assigned into session.state. -/
def applyUserContext (state : PMap) (profile : PMap)
    (existingTrips : Option (List PVal)) (now : String) : PMap :=
  let ctx := initialUserContext profile existingTrips now
  dictSet (dictSet (dictSet state
    "user_profile" (pmapGetD ctx "user_profile" vnone))
    "itinerary" (pmapGetD ctx "itinerary" vnone))
    "system_time" (pmapGetD ctx "system_time" vnone)

/-- The trip_data dictionary built by _convert_itinerary_to_trip_data. -/
structure TripData where
  destination : PVal
  departureCity : PVal
  startDate : PVal
  endDate : PVal
  totalBudget : PVal
  currency : PVal
  totalAdultTravellers : PVal
  totalChildTravellers : PVal
  travellingWithPets : PVal
  stayPreference : List PVal
  transportationPreference : List PVal
  extraActivities : List PVal
  specialRequirements : PVal
  deriving DecidableEq

/-- The body of the event loop of _convert_itinerary_to_trip_data for one
dict-shaped event: on a hotel event append a truthy, not-yet-present
room_selection; on a visit event a description; on a transportation event a
type. -/
def stepEvent (td : TripData) (ekvs : PMap) : TripData :=
  let etype := pmapGetD ekvs "event_type" (vstr "")
  if pyEq etype (vstr "hotel") then
    let room := pmapGetD ekvs "room_selection" (vstr "")
    if pyTruthy room && !(td.stayPreference.any (fun x => pyEq room x)) then
      { td with stayPreference := td.stayPreference ++ [room] }
    else td
  else if pyEq etype (vstr "visit") then
    let act := pmapGetD ekvs "description" (vstr "")
    if pyTruthy act && !(td.extraActivities.any (fun x => pyEq act x)) then
      { td with extraActivities := td.extraActivities ++ [act] }
    else td
  else if pyEq etype (vstr "transportation") then
    let tr := pmapGetD ekvs "type" (vstr "")
    if pyTruthy tr && !(td.transportationPreference.any (fun x => pyEq tr x)) then
      { td with transportationPreference := td.transportationPreference ++ [tr] }
    else td
  else td

/-- The preference accumulation over one day's event list.  A .get on a
non-dict event raises AttributeError, modelled as Except.error. -/
def scanEvents (td : TripData) : List PVal → Except String TripData
  | [] => Except.ok td
  | vdict ekvs :: rest => scanEvents (stepEvent td ekvs) rest
  | _ :: _ => Except.error "AttributeError"

/-- Keys of a PMap as string values. -/
def mapKeys : PMap → List PVal
  | mnil => []
  | mcons k _ t => vstr k :: mapKeys t

/-- Iterating `for event in events`: lists and tuples yield elements, a
string yields its characters, a dict yields its keys, anything else truthy
raises TypeError. -/
def iterSeq : PVal → Except String (List PVal)
  | vlist a => Except.ok (arrList a)
  | vtuple a => Except.ok (arrList a)
  | vstr s => Except.ok (s.data.map (fun ch => vstr (String.mk [ch])))
  | vdict m => Except.ok (mapKeys m)
  | vnone => Except.error "TypeError"
  | vbool _ => Except.error "TypeError"
  | vint _ => Except.error "TypeError"
  | vbytes bs => Except.ok (bs.map (fun b => vint (Int.ofNat b)))
  | _ => Except.error "TypeError"

/-- The day loop of _convert_itinerary_to_trip_data. -/
def scanDays (td : TripData) : List PVal → Except String TripData
  | [] => Except.ok td
  | day :: rest =>
    match day with
    | vdict dkvs =>
      match iterSeq (pmapGetD dkvs "events" (vlist anil)) with
      | Except.ok evs =>
        match scanEvents td evs with
        | Except.ok td2 => scanDays td2 rest
        | Except.error e => Except.error e
      | Except.error e => Except.error e
    | _ => Except.error "AttributeError"

/-- The trip_data literal of _convert_itinerary_to_trip_data before the day
scan, with every top-level field defaulted. -/
def baseTripData (ikvs tkvs : PMap) : TripData :=
  { destination := pmapGetD ikvs "destination" (vstr ""),
    departureCity := pmapGetD ikvs "origin" (vstr ""),
    startDate := pmapGetD ikvs "start_date" (vstr ""),
    endDate := pmapGetD ikvs "end_date" (vstr ""),
    totalBudget := vstr (pyStr (pmapGetD ikvs "estimated_budget" (vint 0))),
    currency := vstr "USD",
    totalAdultTravellers := vstr (pyStr (pmapGetD tkvs "adults" (vint 1))),
    totalChildTravellers := pmapGetD tkvs "children" (vint 0),
    travellingWithPets := pmapGetD tkvs "pets" (vbool false),
    stayPreference := [],
    transportationPreference := [],
    extraActivities := [],
    specialRequirements := pmapGetD ikvs "notes" (vstr "") }

/-- ADKTravelPlannerService._convert_itinerary_to_trip_data. -/
def convertItineraryToTripData (ikvs : PMap) : Except String TripData :=
  match pmapGetD ikvs "travelers" (vdict mnil) with
  | vdict tkvs =>
    let td := baseTripData ikvs tkvs
    let days := pmapGetD ikvs "days" (vlist anil)
    if pyTruthy days then
      match iterSeq days with
      | Except.ok ds => scanDays td ds
      | Except.error e => Except.error e
    else Except.ok td
  | _ => Except.error "AttributeError"

/-- ADKTravelPlannerService.extract_itinerary_from_session: read the session
state snapshot, look for a truthy itinerary with a truthy days entry, and
convert it; a missing itinerary or a falsy days entry is a normal absent
result, and an unregistered session raises the not-found ValueError inside
get_session_state. -/
def extractItinerary (registered : Bool) (sessionId : String) (state : PMap) :
    Except String (Option TripData) :=
  if registered then
    let itin := pmapGetD state "itinerary" (vdict mnil)
    if pyTruthy itin then
      match itin with
      | vdict ikvs =>
        if pyTruthy (pmapGetD ikvs "days" vnone) then
          match convertItineraryToTripData ikvs with
          | Except.ok td => Except.ok (some td)
          | Except.error e => Except.error e
        else Except.ok none
      | _ => Except.error "AttributeError"
    else Except.ok none
  else Except.error ("Session " ++ sessionId ++ " not found")

/-- StructuredResponseParser.flight_keywords. -/
def flightKeywords : List String :=
  ["flight", "flights", "fly", "flying", "airline", "airplane", "book flight",
   "flight search", "flight deals", "airfare", "plane ticket"]

/-- StructuredResponseParser.hotel_keywords. -/
def hotelKeywords : List String :=
  ["hotel", "hotels", "accommodation", "stay", "room", "booking", "lodge", "resort"]

/-- StructuredResponseParser.itinerary_keywords. -/
def itineraryKeywords : List String :=
  ["itinerary", "plan", "schedule", "trip plan", "travel plan", "day by day"]

/-- StructuredResponseParser.should_return_structured_data. -/
def shouldReturnStructuredData (message : String) (agentName : Option String) :
    Option String :=
  let ml := lowerStr message
  if flightKeywords.any (fun k => pyInStr k ml) then some "flight"
  else if hotelKeywords.any (fun k => pyInStr k ml) then some "hotel"
  else if itineraryKeywords.any (fun k => pyInStr k ml) then some "itinerary"
  else
    match agentName with
    | some an =>
      if an == "" then none
      else
        let al := lowerStr an
        if pyInStr "flight" al then some "flight"
        else if pyInStr "hotel" al then some "hotel"
        else if pyInStr "itinerary" al then some "itinerary"
        else none
    | none => none

/-- Is a mapping. -/
def isDictVal : PVal → Bool
  | vdict _ => true
  | _ => false

/-- Every element a mapping. -/
def allDict : PArr → Bool
  | anil => true
  | acons x xs => isDictVal x && allDict xs

/-- Non-empty and every element a mapping. -/
def seqNonEmptyAllDict : PArr → Bool
  | anil => false
  | acons x xs => isDictVal x && allDict xs

/-- The shape condition of the claim on the structured-data classifier: a
mapping with a "data" key whose value is a non-empty sequence of mappings. -/
def claimShapeC4 (c : PVal) : Bool :=
  match c with
  | vdict kvs =>
    match pmapFind kvs "data" with
    | some (vlist a) => seqNonEmptyAllDict a
    | some (vtuple a) => seqNonEmptyAllDict a
    | _ => false
  | _ => false

/-- The record-type inference rule stated on its own: flights when the first
record of a non-empty list carries flightNumber, hotels when it carries
pricePerNight, absent otherwise. -/
def dataTypeOf : PVal → Option String
  | vlist (acons (vdict fkvs) _) =>
    if pmapHasKey fkvs "flightNumber" then some "flights"
    else if pmapHasKey fkvs "pricePerNight" then some "hotels"
    else none
  | _ => none

/-- The shape of a wire event's structured_data the classifier claim
promises: a mapping containing a "data" key. -/
def claimShapeC10 (d : EventDict) : Bool :=
  match d.structuredData with
  | some (vdict kvs) => pmapHasKey kvs "data"
  | _ => false

/-- Python any(v == x for x in l). -/
def anyPyEq (v : PVal) (l : List PVal) : Bool := l.any (fun x => pyEq v x)

/-- Append a value unless an equal one is already present. -/
def insertDistinct (acc : List PVal) (v : PVal) : List PVal :=
  if anyPyEq v acc then acc else acc ++ [v]

/-- Fold insertDistinct over a list. -/
def insertAll (acc : List PVal) (l : List PVal) : List PVal :=
  l.foldl insertDistinct acc

/-- First-seen-order deduplication under Python equality, carrying the list
of values already kept: an element equal to an earlier kept one is dropped,
otherwise it is kept in place. -/
def pyDistinctAux (seen : List PVal) : List PVal → List PVal
  | [] => []
  | x :: xs =>
    if anyPyEq x seen then pyDistinctAux seen xs
    else x :: pyDistinctAux (seen ++ [x]) xs

/-- First-seen-order deduplication under Python equality: the specification
reading of "each value appearing at most once per list in first-seen
order". -/
def pyDistinct (l : List PVal) : List PVal := pyDistinctAux [] l

/-- The non-empty room_selection values of hotel-typed events, in order. -/
def hotelRoomsOfEvents (evs : List PVal) : List PVal :=
  evs.filterMap (fun ev =>
    match ev with
    | vdict ekvs =>
      if pyEq (pmapGetD ekvs "event_type" (vstr "")) (vstr "hotel") then
        if pyTruthy (pmapGetD ekvs "room_selection" (vstr "")) then
          some (pmapGetD ekvs "room_selection" (vstr ""))
        else none
      else none
    | _ => none)

/-- The non-empty description values of visit-typed events, in order. -/
def visitDescsOfEvents (evs : List PVal) : List PVal :=
  evs.filterMap (fun ev =>
    match ev with
    | vdict ekvs =>
      if pyEq (pmapGetD ekvs "event_type" (vstr "")) (vstr "visit") then
        if pyTruthy (pmapGetD ekvs "description" (vstr "")) then
          some (pmapGetD ekvs "description" (vstr ""))
        else none
      else none
    | _ => none)

/-- The non-empty type values of transportation-typed events, in order. -/
def transportTypesOfEvents (evs : List PVal) : List PVal :=
  evs.filterMap (fun ev =>
    match ev with
    | vdict ekvs =>
      if pyEq (pmapGetD ekvs "event_type" (vstr "")) (vstr "transportation") then
        if pyTruthy (pmapGetD ekvs "type" (vstr "")) then
          some (pmapGetD ekvs "type" (vstr ""))
        else none
      else none
    | _ => none)

/-- The event list of one day as the scan iterates it. -/
def dayEventsList (day : PVal) : List PVal :=
  match day with
  | vdict dkvs =>
    match iterSeq (pmapGetD dkvs "events" (vlist anil)) with
    | Except.ok l => l
    | Except.error _ => []
  | _ => []

/-- All hotel rooms across the day list, in order. -/
def rawStays (ds : List PVal) : List PVal :=
  ds.flatMap (fun day => hotelRoomsOfEvents (dayEventsList day))

/-- All visit descriptions across the day list, in order. -/
def rawVisits (ds : List PVal) : List PVal :=
  ds.flatMap (fun day => visitDescsOfEvents (dayEventsList day))

/-- All transportation types across the day list, in order. -/
def rawTransports (ds : List PVal) : List PVal :=
  ds.flatMap (fun day => transportTypesOfEvents (dayEventsList day))

/-- A well-shaped day: a dict whose events entry iterates to a list of
dicts. -/
def GoodDay (day : PVal) : Prop :=
  ∃ dkvs evs, day = vdict dkvs
    ∧ iterSeq (pmapGetD dkvs "events" (vlist anil)) = Except.ok evs
    ∧ ∀ ev ∈ evs, ∃ ekvs, ev = vdict ekvs

mutual

theorem mjs_safe : ∀ v, isJsonSafe (makeJsonSerializable v) = true
  | vnone => rfl
  | vbool _ => rfl
  | vint _ => rfl
  | vstr _ => rfl
  | vbytes _ => rfl
  | vlist xs => by simp [makeJsonSerializable, isJsonSafe, mjsArr_safe xs]
  | vtuple xs => by simp [makeJsonSerializable, isJsonSafe, mjsArr_safe xs]
  | vdict kvs => by simp [makeJsonSerializable, isJsonSafe, mjsMap_safe kvs]
  | vobjModelDump d s => by simp [makeJsonSerializable, mjs_safe d]
  | vobjDict d s => by simp [makeJsonSerializable, mjs_safe d]
  | vobjDunder kvs s => by simp [makeJsonSerializable, isJsonSafe, mjsMap_safe kvs]
  | vother _ => rfl

theorem mjsArr_safe : ∀ xs, isJsonSafeArr (mjsArr xs) = true
  | anil => rfl
  | acons x xs => by simp [mjsArr, isJsonSafeArr, mjs_safe x, mjsArr_safe xs]

theorem mjsMap_safe : ∀ kvs, isJsonSafeMap (mjsMap kvs) = true
  | mnil => rfl
  | mcons k v t => by simp [mjsMap, isJsonSafeMap, mjs_safe v, mjsMap_safe t]

end

theorem pmapOf_safe (l : List (String × PVal)) :
    isJsonSafeMap (pmapOf l) = l.all (fun kv => isJsonSafe kv.2) := by
  induction l with
  | nil => rfl
  | cons kv t ih => cases kv; simp [pmapOf, isJsonSafeMap, ih]

theorem optField_all_pval (k : String) (o : Option PVal) :
    (optField k (o.map makeJsonSerializable)).all (fun kv => isJsonSafe kv.2) = true := by
  cases o <;> simp [optField, mjs_safe]

theorem optField_all_str (k : String) (o : Option String) :
    (optField k (o.map vstr)).all (fun kv => isJsonSafe kv.2) = true := by
  cases o <;> simp [optField, isJsonSafe]

theorem optField_all_bool (k : String) (o : Option Bool) :
    (optField k (o.map vbool)).all (fun kv => isJsonSafe kv.2) = true := by
  cases o <;> simp [optField, isJsonSafe]

theorem serializeFinal_json_safe (d : EventDict) :
    isJsonSafe (eventDictJson (serializeFinal d)) = true := by
  simp [eventDictJson, serializeFinal, isJsonSafe, pmapOf_safe, List.all_append,
    optField_all_pval, optField_all_str, optField_all_bool, mjs_safe]

/-- C2: translating any native event into a wire event is a total function of
the modelled capability surface (so it never raises), the JSON-safety
conversion obeys the stated clauses (primitives pass through, bytes become
base64, sequences and mappings convert element-wise, objects with a
structured-dump capability are unwrapped, anything else degrades to its
string form), and the emitted wire event is always JSON-serializable. -/
theorem translate_total_and_json_safe :
    (∀ e now, isJsonSafe (eventDictJson (convertAdkEventToDict e now)) = true)
    ∧ makeJsonSerializable vnone = vnone
    ∧ (∀ b, makeJsonSerializable (vbool b) = vbool b)
    ∧ (∀ n, makeJsonSerializable (vint n) = vint n)
    ∧ (∀ s, makeJsonSerializable (vstr s) = vstr s)
    ∧ (∀ bs, makeJsonSerializable (vbytes bs) = vstr (base64Encode bs))
    ∧ (∀ xs, makeJsonSerializable (vlist xs) = vlist (mjsArr xs))
    ∧ (∀ xs, makeJsonSerializable (vtuple xs) = vlist (mjsArr xs))
    ∧ (∀ kvs, makeJsonSerializable (vdict kvs) = vdict (mjsMap kvs))
    ∧ (∀ v s, makeJsonSerializable (vobjModelDump v s) = makeJsonSerializable v)
    ∧ (∀ v s, makeJsonSerializable (vobjDict v s) = makeJsonSerializable v)
    ∧ (∀ kvs s, makeJsonSerializable (vobjDunder kvs s) = vdict (mjsMap kvs))
    ∧ (∀ s, makeJsonSerializable (vother s) = vstr s) := by
  refine ⟨fun e now => ?_, rfl, fun b => rfl, fun n => rfl, fun s => rfl,
    fun bs => rfl, fun xs => ?_, fun xs => ?_, fun kvs => ?_,
    fun v s => ?_, fun v s => ?_, fun kvs s => ?_, fun s => rfl⟩
  · exact serializeFinal_json_safe (convertCore e now)
  all_goals simp [makeJsonSerializable]

theorem detect_etype (v : PVal) (d : EventDict) :
    (detectDataType v d).etype = d.etype := by
  unfold detectDataType
  repeat' split
  all_goals rfl

theorem detect_structuredData (v : PVal) (d : EventDict) :
    (detectDataType v d).structuredData = d.structuredData := by
  unfold detectDataType
  repeat' split
  all_goals rfl

theorem detect_dataType (v : PVal) (d : EventDict) (h : d.dataType = none) :
    (detectDataType v d).dataType = dataTypeOf v := by
  unfold detectDataType dataTypeOf
  repeat' split
  all_goals simp_all

/-- C4 counterexample: the mapping with a "data" key holding an empty list is
classified structured_response by _check_for_structured_data although its
data value is not a non-empty sequence of mappings. -/
def c4Content : PVal := vdict (pmapOf [("data", vlist anil)])

/-- A fresh event dict as it is when the classifier runs. -/
def freshD (now : String) : EventDict :=
  { timestamp := vstr now, author := "system", etype := "agent_message" }

/-- C4, counterexample: the classifier marks a mapping structured although
its data value is an empty list, refuting "structured exactly when the data
value is a non-empty sequence of mappings". -/
theorem check_structured_counterexample :
    (checkForStructuredData c4Content (freshD "t0")).etype = "structured_response"
    ∧ claimShapeC4 c4Content = false := ⟨rfl, rfl⟩

/-- C4 (amended): on a freshly defaulted event dict, the classifier marks a
mapping structured whenever it contains a "data" key, whatever the shape of
the data value; it attaches the mapping itself as structured_data, and sets
data_type to flights when the data value is a non-empty list whose first
record carries flightNumber, to hotels when it carries pricePerNight
instead, and leaves data_type absent otherwise. -/
theorem check_structured_marking (ts : PVal) (au : String) (oc : Option PVal)
    (kvs : PMap) (h : pmapHasKey kvs "data" = true) :
    (checkForStructuredData (vdict kvs)
      { timestamp := ts, author := au, etype := "agent_message", content := oc }).etype
        = "structured_response"
    ∧ (checkForStructuredData (vdict kvs)
      { timestamp := ts, author := au, etype := "agent_message", content := oc }).structuredData
        = some (vdict kvs)
    ∧ (checkForStructuredData (vdict kvs)
      { timestamp := ts, author := au, etype := "agent_message", content := oc }).dataType
        = dataTypeOf (pmapGetD kvs "data" (vlist anil)) := by
  refine ⟨?_, ?_, ?_⟩ <;>
    simp [checkForStructuredData, h, detect_etype, detect_structuredData, detect_dataType]

/-- C4 witness for the amended classifier characterization at a concrete
input. -/
theorem check_structured_marking_witness :
    pmapHasKey (pmapOf [("data", vlist anil)]) "data" = true
    ∧ (checkForStructuredData (vdict (pmapOf [("data", vlist anil)]))
        { timestamp := vstr "t0", author := "system", etype := "agent_message",
          content := none }).etype = "structured_response"
    ∧ (checkForStructuredData (vdict (pmapOf [("data", vlist anil)]))
        { timestamp := vstr "t0", author := "system", etype := "agent_message",
          content := none }).structuredData = some (vdict (pmapOf [("data", vlist anil)]))
    ∧ (checkForStructuredData (vdict (pmapOf [("data", vlist anil)]))
        { timestamp := vstr "t0", author := "system", etype := "agent_message",
          content := none }).dataType = dataTypeOf (pmapGetD (pmapOf [("data", vlist anil)]) "data" (vlist anil)) := by
  refine ⟨rfl, ?_⟩
  exact check_structured_marking (vstr "t0") "system" none (pmapOf [("data", vlist anil)]) rfl

/-- The data_type invariant actually maintained by the translator: only
flights or hotels is ever written, and only ever next to some
structured_data value. -/
def dtOk (d : EventDict) : Prop :=
  (d.dataType = none ∨ d.dataType = some "flights" ∨ d.dataType = some "hotels")
  ∧ (d.dataType ≠ none → d.structuredData ≠ none)

theorem dtOk_detect (v : PVal) (d : EventDict) (hsd : d.structuredData ≠ none)
    (hd : dtOk d) : dtOk (detectDataType v d) := by
  unfold detectDataType
  repeat' split
  all_goals first
    | exact hd
    | exact ⟨Or.inr (Or.inl rfl), fun _ => hsd⟩
    | exact ⟨Or.inr (Or.inr rfl), fun _ => hsd⟩

theorem dtOk_partsScan (l : List PVal) : ∀ d, dtOk d → dtOk (partsScan l d) := by
  induction l with
  | nil => intro d hd; exact hd
  | cons p rest ih =>
    intro d hd
    unfold partsScan
    repeat' split
    all_goals first
      | exact hd
      | exact ih _ hd
      | exact ⟨hd.1, fun _ => by simp⟩
      | exact ih _ (dtOk_detect _ _ (by simp) ⟨hd.1, fun _ => by simp⟩)

theorem dtOk_respScan (l : List PVal) : ∀ d, dtOk d → dtOk (respScan l d) := by
  induction l with
  | nil => intro d hd; exact hd
  | cons r rest ih =>
    intro d hd
    unfold respScan
    repeat' split
    all_goals first
      | exact hd
      | exact ih _ hd
      | exact ih _ (dtOk_detect _ _ (by simp) ⟨hd.1, fun _ => by simp⟩)

theorem dtOk_check (c : PVal) (d : EventDict) (hd : dtOk d) :
    dtOk (checkForStructuredData c d) := by
  unfold checkForStructuredData
  repeat' split
  all_goals first
    | exact hd
    | exact dtOk_partsScan _ _ hd
    | exact dtOk_detect _ _ (by simp) ⟨hd.1, fun _ => by simp⟩

theorem dtOk_stepAuthor (e : NativeEvent) (d : EventDict) (hd : dtOk d) :
    dtOk (stepAuthor e d) := by
  unfold stepAuthor
  repeat' split
  all_goals exact hd

theorem dtOk_stepTimestamp (e : NativeEvent) (d : EventDict) (hd : dtOk d) :
    dtOk (stepTimestamp e d) := by
  unfold stepTimestamp
  repeat' split
  all_goals exact hd

theorem dtOk_stepContent (e : NativeEvent) (d : EventDict) (hd : dtOk d) :
    dtOk (stepContent e d) := by
  unfold stepContent
  repeat' split
  all_goals first | exact hd | exact dtOk_check _ _ hd

theorem dtOk_stepFunctionCalls (e : NativeEvent) (d : EventDict) (hd : dtOk d) :
    dtOk (stepFunctionCalls e d) := by
  unfold stepFunctionCalls
  repeat' split
  all_goals exact hd

theorem dtOk_stepFunctionResponses (e : NativeEvent) (d : EventDict) (hd : dtOk d) :
    dtOk (stepFunctionResponses e d) := by
  unfold stepFunctionResponses
  repeat' split
  all_goals first | exact hd | exact dtOk_respScan _ _ hd

theorem dtOk_stepFinal (e : NativeEvent) (d : EventDict) (hd : dtOk d) :
    dtOk (stepFinal e d) := by
  unfold stepFinal
  repeat' split
  all_goals exact hd

theorem dtOk_stepError (e : NativeEvent) (d : EventDict) (hd : dtOk d) :
    dtOk (stepError e d) := by
  unfold stepError
  repeat' split
  all_goals exact hd

theorem dtOk_stepFlags (e : NativeEvent) (d : EventDict) (hd : dtOk d) :
    dtOk (stepFlags e d) := by
  unfold stepFlags
  repeat' split
  all_goals exact hd

theorem dtOk_serializeFinal (d : EventDict) (hd : dtOk d) :
    dtOk (serializeFinal d) := by
  refine ⟨hd.1, fun h => ?_⟩
  have h2 := hd.2 h
  cases hsd : d.structuredData with
  | none => exact absurd hsd h2
  | some v => simp [serializeFinal, hsd]

theorem dtOk_convert (e : NativeEvent) (now : String) :
    dtOk (convertAdkEventToDict e now) :=
  dtOk_serializeFinal _ (dtOk_stepFlags e _ (dtOk_stepError e _ (dtOk_stepFinal e _
    (dtOk_stepFunctionResponses e _ (dtOk_stepFunctionCalls e _ (dtOk_stepContent e _
      (dtOk_stepTimestamp e _ (dtOk_stepAuthor e _
        ⟨Or.inl rfl, fun h => absurd rfl h⟩))))))))

/-- C10 counterexample input: narrative content whose first part parses to a
flights payload and whose second part parses to the bare JSON string
"data", which the membership test accepts by substring containment; the
classifier then stores that string as structured_data and aborts on the
following .get, leaving data_type = flights next to a non-mapping
structured_data. -/
def c10Event : NativeEvent :=
  { content := some (vdict (pmapOf [("parts", vlist (parrOf [
      vdict (pmapOf [("text", vstr "\x7b\"data\": [\x7b\"flightNumber\": 1\x7d]\x7d")]),
      vdict (pmapOf [("text", vstr "\"data\"")])]))])) }

/-- C10, counterexample: a translated wire event can carry data_type while
its structured_data is the bare string "data", not a mapping containing a
"data" key, refuting the claimed shape. -/
theorem convert_dataType_counterexample :
    (convertAdkEventToDict c10Event "t0").dataType = some "flights"
    ∧ (convertAdkEventToDict c10Event "t0").structuredData = some (vstr "data")
    ∧ claimShapeC10 (convertAdkEventToDict c10Event "t0") = false :=
  ⟨rfl, rfl, rfl⟩

/-- C10 (amended): whenever a translated wire event carries data_type, the
value is flights or hotels and a structured_data field is present as well;
structured_data need not however be a mapping containing a "data" key (the
nested-parts path can leave any parsed JSON value there). -/
theorem convert_dataType_invariant (e : NativeEvent) (now t : String)
    (h : (convertAdkEventToDict e now).dataType = some t) :
    (t = "flights" ∨ t = "hotels")
    ∧ (convertAdkEventToDict e now).structuredData ≠ none := by
  obtain ⟨h1, h2⟩ := dtOk_convert e now
  refine ⟨?_, h2 (by simp [h])⟩
  rcases h1 with h1 | h1 | h1
  · rw [h] at h1; cases h1
  · rw [h] at h1; exact Or.inl (Option.some.inj h1)
  · rw [h] at h1; exact Or.inr (Option.some.inj h1)

/-- A native event whose content is a direct flights payload. -/
def evFlights : NativeEvent :=
  { content := some (vdict (pmapOf [("data",
      vlist (parrOf [vdict (pmapOf [("flightNumber", vstr "AA101")])]))])) }

/-- C10 witness: the amended invariant applied at a concrete flights
event. -/
theorem convert_dataType_invariant_witness :
    (convertAdkEventToDict evFlights "t0").dataType = some "flights"
    ∧ (("flights" = "flights" ∨ "flights" = "hotels")
        ∧ (convertAdkEventToDict evFlights "t0").structuredData ≠ none) :=
  ⟨rfl, convert_dataType_invariant evFlights "t0" "flights" rfl⟩

/-- Does any flight keyword occur in the lowercased message? -/
def flightHit (m : String) : Bool := flightKeywords.any (fun k => pyInStr k (lowerStr m))

/-- Does any hotel keyword occur in the lowercased message? -/
def hotelHit (m : String) : Bool := hotelKeywords.any (fun k => pyInStr k (lowerStr m))

/-- Does any itinerary keyword occur in the lowercased message? -/
def itineraryHit (m : String) : Bool := itineraryKeywords.any (fun k => pyInStr k (lowerStr m))

/-- C5: intent classification checks the flight, hotel and itinerary keyword
sets in that order against the lowercased message with first-match-wins: any
message containing a flight keyword classifies flight even when hotel or
itinerary keywords also occur; the agent-name hint is consulted only when no
keyword matched (the result is independent of it otherwise), and a message
matching nothing with no hint classifies as none. -/
theorem intent_first_match_wins (m : String) (an : Option String) :
    (flightHit m = true → shouldReturnStructuredData m an = some "flight")
    ∧ (flightHit m = false → hotelHit m = true →
        shouldReturnStructuredData m an = some "hotel")
    ∧ (flightHit m = false → hotelHit m = false → itineraryHit m = true →
        shouldReturnStructuredData m an = some "itinerary")
    ∧ ((flightHit m || hotelHit m || itineraryHit m) = true →
        ∀ an2, shouldReturnStructuredData m an = shouldReturnStructuredData m an2)
    ∧ (flightHit m = false → hotelHit m = false → itineraryHit m = false →
        an = none → shouldReturnStructuredData m an = none) := by
  refine ⟨fun hf => ?_, fun hf hh => ?_, fun hf hh hi => ?_, fun hany an2 => ?_,
    fun hf hh hi han => ?_⟩
  · unfold flightHit at hf
    simp only [shouldReturnStructuredData, hf, if_true]
  · unfold flightHit at hf
    unfold hotelHit at hh
    simp only [shouldReturnStructuredData, hf, hh, if_true, Bool.false_eq_true, if_false]
  · unfold flightHit at hf
    unfold hotelHit at hh
    unfold itineraryHit at hi
    simp only [shouldReturnStructuredData, hf, hh, hi, if_true, Bool.false_eq_true, if_false]
  · cases hft : flightHit m with
    | true =>
      unfold flightHit at hft
      simp only [shouldReturnStructuredData, hft, if_true]
    | false =>
      cases hht : hotelHit m with
      | true =>
        unfold flightHit at hft
        unfold hotelHit at hht
        simp only [shouldReturnStructuredData, hft, hht, if_true, Bool.false_eq_true, if_false]
      | false =>
        rw [hft, hht] at hany
        simp only [Bool.false_or] at hany
        unfold flightHit at hft
        unfold hotelHit at hht
        unfold itineraryHit at hany
        simp only [shouldReturnStructuredData, hft, hht, hany, if_true, Bool.false_eq_true,
          if_false]
  · subst han
    unfold flightHit at hf
    unfold hotelHit at hh
    unfold itineraryHit at hi
    simp only [shouldReturnStructuredData, hf, hh, hi, Bool.false_eq_true, if_false]

/-- C5 witness: the spec example "find me flights and hotels" contains both a
flight and a hotel keyword and classifies flight. -/
theorem intent_first_match_wins_witness :
    flightHit "find me flights and hotels" = true
    ∧ hotelHit "find me flights and hotels" = true
    ∧ shouldReturnStructuredData "find me flights and hotels" none = some "flight" :=
  ⟨by decide, by decide,
   (intent_first_match_wins "find me flights and hotels" none).1 (by decide)⟩

theorem dictSet_find_self : ∀ (m : PMap) (k : String) (v : PVal),
    pmapFind (dictSet m k v) k = some v
  | mnil, k, v => by simp [dictSet, pmapFind]
  | mcons k0 v0 t, k, v => by
    unfold dictSet
    split
    · next h => simp [pmapFind, h]
    · next h => simp [pmapFind, h, dictSet_find_self t k v]

theorem dictSet_find_ne : ∀ (m : PMap) (k k2 : String) (v : PVal),
    (k == k2) = false → pmapFind (dictSet m k v) k2 = pmapFind m k2
  | mnil, k, k2, v, h => by simp [dictSet, pmapFind, h]
  | mcons k0 v0 t, k, k2, v, h => by
    unfold dictSet
    split
    · next he =>
        have hk0 : k0 = k := by simpa using he
        subst hk0
        simp [pmapFind, h]
    · next he => simp [pmapFind, dictSet_find_ne t k k2 v h]

theorem createOrGet_known (st : RegistryState) (uid sid : String) (ts : Nat)
    (iso : String) (hs : (sid == "") = false)
    (hc : (st.sessions.map Prod.fst).contains sid = true) :
    createOrGetSession st uid (some sid) ts iso
      = (st, { sid := sid, status := "active", createdAt := iso }) := by
  unfold createOrGetSession
  simp only [hs, Bool.false_eq_true, if_false, hc, if_true]

theorem createOrGet_fresh (st : RegistryState) (uid sid : String) (ts : Nat)
    (iso : String) (hs : (sid == "") = false)
    (hc : (st.sessions.map Prod.fst).contains sid = false) :
    createOrGetSession st uid (some sid) ts iso
      = ({ sessions := st.sessions ++ [(sid, st.nextHandle)],
           nextHandle := st.nextHandle + 1,
           runtimeCalls := st.runtimeCalls + 1 },
         { sid := sid, status := "active", createdAt := iso }) := by
  unfold createOrGetSession
  simp only [hs, Bool.false_eq_true, if_false, hc, if_true]

/-- C8: create-or-get with an explicit session id is idempotent: the second
call returns the same session id and leaves the registry state untouched (no
new native handle is registered and the runtime create counter does not
move), and registration keeps session keys unique, so a key maps to at most
one native handle. -/
theorem registry_idempotent (st : RegistryState) (uid sid : String)
    (ts1 ts2 : Nat) (iso1 iso2 : String) (hsid : sid ≠ "") :
    (createOrGetSession st uid (some sid) ts1 iso1).2.sid = sid
    ∧ (createOrGetSession (createOrGetSession st uid (some sid) ts1 iso1).1
        uid (some sid) ts2 iso2).2.sid = sid
    ∧ (createOrGetSession (createOrGetSession st uid (some sid) ts1 iso1).1
        uid (some sid) ts2 iso2).1
      = (createOrGetSession st uid (some sid) ts1 iso1).1
    ∧ ((st.sessions.map Prod.fst).Nodup →
        ((createOrGetSession st uid (some sid) ts1 iso1).1.sessions.map Prod.fst).Nodup) := by
  have hs : (sid == "") = false := beq_eq_false_iff_ne.mpr hsid
  cases hc : (st.sessions.map Prod.fst).contains sid with
  | true =>
    rw [createOrGet_known st uid sid ts1 iso1 hs hc]
    rw [createOrGet_known st uid sid ts2 iso2 hs hc]
    exact ⟨rfl, rfl, rfl, fun h => h⟩
  | false =>
    rw [createOrGet_fresh st uid sid ts1 iso1 hs hc]
    have hmem : sid ∉ st.sessions.map Prod.fst := fun hm => by
      have hb : (st.sessions.map Prod.fst).contains sid = true := List.elem_iff.mpr hm
      rw [hb] at hc
      cases hc
    have hc2 : (((st.sessions ++ [(sid, st.nextHandle)]).map Prod.fst).contains sid) = true := by
      refine List.elem_iff.mpr ?_
      simp
    rw [createOrGet_known _ uid sid ts2 iso2 hs hc2]
    refine ⟨rfl, rfl, rfl, fun hnd => ?_⟩
    simp only [List.map_append]
    rw [List.nodup_append]
    refine ⟨hnd, List.nodup_singleton _, fun x hx hx2 => ?_⟩
    simp only [List.map_cons, List.map_nil, List.mem_singleton] at hx2
    subst hx2
    exact hmem hx

/-- C8 witness: idempotence at a concrete registry. -/
theorem registry_idempotent_witness :
    (createOrGetSession (createOrGetSession (⟨[], 0, 0⟩ : RegistryState)
        "u1" (some "abc") 5 "T1").1 "u1" (some "abc") 9 "T2").1
      = (createOrGetSession (⟨[], 0, 0⟩ : RegistryState) "u1" (some "abc") 5 "T1").1 :=
  (registry_idempotent ⟨[], 0, 0⟩ "u1" "abc" 5 9 "T1" "T2" (by decide)).2.2.1

/-- C9: initialize builds a user_profile substructure in which display name,
nationality, home address, preferred local transport, prior trips, travel
style and budget range are always present, taking the profile value when
supplied and an explicit default otherwise (pmapGetD is exactly that
selection), and writes an empty itinerary and the current system time into
the session state; an unregistered session id fails with the
session-not-found error. -/
theorem initialize_defaults (sid : String) (profile : PMap)
    (trips : Option (List PVal)) (now : String) (state : PMap) :
    initializeSession false sid profile trips now
      = Except.error ("Session " ++ sid ++ " not found")
    ∧ initializeSession true sid profile trips now
      = Except.ok (initialUserContext profile trips now)
    ∧ pmapFind (initialUserContext profile trips now) "itinerary" = some (vdict mnil)
    ∧ pmapFind (initialUserContext profile trips now) "system_time" = some (vstr now)
    ∧ (∃ up, pmapFind (initialUserContext profile trips now) "user_profile" = some (vdict up)
        ∧ pmapFind up "display_name"
            = some (pmapGetD profile "display_name" (pmapGetD profile "first_name" (vstr "")))
        ∧ pmapFind up "passport_nationality"
            = some (pmapGetD profile "passport_nationality" (vstr "US"))
        ∧ (∃ home, pmapFind up "home" = some (vdict home)
            ∧ pmapFind home "address" = some (pmapGetD profile "address" (vstr "Default Address"))
            ∧ pmapFind home "local_prefer_mode"
                = some (pmapGetD profile "preferred_transport" (vstr "driving")))
        ∧ (∃ prefs, pmapFind up "preferences" = some (vdict prefs)
            ∧ pmapFind prefs "previous_trips" = some (vlist (parrOf (tripsOrEmpty trips)))
            ∧ pmapFind prefs "travel_style"
                = some (pmapGetD profile "travel_style" (vstr "adventure"))
            ∧ pmapFind prefs "budget_range"
                = some (pmapGetD profile "budget_range" (vstr "moderate"))))
    ∧ pmapFind (applyUserContext state profile trips now) "system_time" = some (vstr now)
    ∧ pmapFind (applyUserContext state profile trips now) "itinerary" = some (vdict mnil) := by
  refine ⟨rfl, rfl, rfl, rfl,
    ⟨_, rfl, rfl, rfl, ⟨_, rfl, rfl, rfl⟩, ⟨_, rfl, rfl, rfl, rfl⟩⟩, ?_, ?_⟩
  · unfold applyUserContext
    exact dictSet_find_self _ _ _
  · unfold applyUserContext
    rw [dictSet_find_ne _ _ _ _ (by decide)]
    exact dictSet_find_self _ _ _

/-- C3: when the runtime raises during the native stream (streamErr), send
does not propagate the exception: the turn still produces an Except.ok event
list, terminated by exactly one appended error-typed wire event whose
message carries the exception text after the fixed prefix. -/
theorem send_error_terminal (sid : String) (stream : List NativeEvent)
    (sev : List PVal) (so : Bool) (now msg : String) :
    sendMessage true sid stream (some msg) sev so now
      = Except.ok ((sendLoop so now [] none [] stream).2.2 ++ [mkErrorEvent msg now])
    ∧ (mkErrorEvent msg now).etype = "error"
    ∧ (mkErrorEvent msg now).errorFlag = some true
    ∧ (mkErrorEvent msg now).message = some ("Agent execution error: " ++ msg)
    ∧ (mkErrorEvent msg now).author = "system" :=
  ⟨rfl, rfl, rfl, rfl, rfl⟩

/-- C7: a turn that consumes zero native events with structured_only false
synthesizes exactly one agent_message event from the most recent recorded
turn when the session has history, and yields nothing when it has none. -/
theorem send_zero_events_fallback (sid : String) (sev : List PVal) (now : String) :
    (∀ c pre, sev = pre ++ [c] →
        sendMessage true sid [] none sev false now
          = Except.ok [fallbackEvent c now]
        ∧ (fallbackEvent c now).etype = "agent_message"
        ∧ (fallbackEvent c now).author = "root_agent")
    ∧ (sev = [] → sendMessage true sid [] none sev false now = Except.ok []) := by
  constructor
  · intro c pre h
    subst h
    refine ⟨?_, rfl, rfl⟩
    have hl : (pre ++ [c]).getLast? = some c := List.getLast?_concat _
    simp [sendMessage, sendLoop, hl]
  · intro h
    subst h
    rfl

/-- C7 witness: the fallback at one recorded turn, and the empty outcome. -/
theorem send_zero_events_fallback_witness :
    (sendMessage true "s1" [] none [vstr "prior"] false "t0"
        = Except.ok [fallbackEvent (vstr "prior") "t0"]
      ∧ (fallbackEvent (vstr "prior") "t0").etype = "agent_message"
      ∧ (fallbackEvent (vstr "prior") "t0").author = "root_agent")
    ∧ sendMessage true "s2" [] none [] false "t0" = Except.ok [] :=
  ⟨(send_zero_events_fallback "s1" [vstr "prior"] "t0").1 (vstr "prior") [] rfl,
   (send_zero_events_fallback "s2" [] "t0").2 rfl⟩

/-- A native event carrying plain narrative text. -/
def evText : NativeEvent := { content := some (vstr "hello") }

/-- C1: evaluation of send_message at the spec example stream
[agent_message, structured_response(flights), agent_message] with
structured_only true.  The code yields the structured event twice: once
inside the loop (the per-event branch yields structured_response events
immediately) and once again after the stream ends (the remembered event is
re-yielded unconditionally, although the code comment says "if we found
structured data but haven't yielded it yet").  A second divergence: with an
empty native stream and recorded history, structured_only mode still yields
the fallback agent_message event instead of nothing. -/
theorem structured_only_double_yield :
    sendMessage true "s1" [evText, evFlights, evText] none [] true "t0"
      = Except.ok [convertAdkEventToDict evFlights "t0",
                   convertAdkEventToDict evFlights "t0"]
    ∧ (convertAdkEventToDict evFlights "t0").etype = "structured_response"
    ∧ sendMessage true "s1" [] none [vstr "prior"] true "t0"
      = Except.ok [fallbackEvent (vstr "prior") "t0"]
    ∧ (fallbackEvent (vstr "prior") "t0").etype = "agent_message" :=
  ⟨rfl, rfl, rfl, rfl⟩

theorem arrList_parrOf (l : List PVal) : arrList (parrOf l) = l := by
  induction l with
  | nil => rfl
  | cons x xs ih => simp [parrOf, arrList, ih]

theorem pyEq_vstr_ne (v : PVal) (a b : String) (h : pyEq v (vstr a) = true)
    (hne : a ≠ b) : pyEq v (vstr b) = false := by
  cases v <;> simp [pyEq] at h ⊢
  subst h
  exact hne

theorem insertAll_append (acc : List PVal) (l1 l2 : List PVal) :
    insertAll acc (l1 ++ l2) = insertAll (insertAll acc l1) l2 :=
  List.foldl_append _ _ _ _

theorem insertAll_eq_aux : ∀ (l acc : List PVal),
    insertAll acc l = acc ++ pyDistinctAux acc l
  | [], acc => by simp [insertAll, pyDistinctAux]
  | v :: l, acc => by
    show insertAll (insertDistinct acc v) l = _
    unfold pyDistinctAux insertDistinct
    cases hm : anyPyEq v acc with
    | true => simp [hm, insertAll_eq_aux l acc]
    | false => simp [hm, insertAll_eq_aux l (acc ++ [v])]

theorem stepEvent_char (td : TripData) (ekvs : PMap) :
    stepEvent td ekvs =
      { td with
        stayPreference := insertAll td.stayPreference (hotelRoomsOfEvents [vdict ekvs]),
        extraActivities := insertAll td.extraActivities (visitDescsOfEvents [vdict ekvs]),
        transportationPreference :=
          insertAll td.transportationPreference (transportTypesOfEvents [vdict ekvs]) } := by
  unfold stepEvent hotelRoomsOfEvents visitDescsOfEvents transportTypesOfEvents
  cases h1 : pyEq (pmapGetD ekvs "event_type" (vstr "")) (vstr "hotel") with
  | true =>
    have h2 := pyEq_vstr_ne _ _ "visit" h1 (by decide)
    have h3 := pyEq_vstr_ne _ _ "transportation" h1 (by decide)
    cases ht : pyTruthy (pmapGetD ekvs "room_selection" (vstr "")) <;>
      cases hm : td.stayPreference.any
        (fun x => pyEq (pmapGetD ekvs "room_selection" (vstr "")) x) <;>
      simp [h1, h2, h3, ht, hm, insertAll, insertDistinct, anyPyEq]
  | false =>
    cases h2 : pyEq (pmapGetD ekvs "event_type" (vstr "")) (vstr "visit") with
    | true =>
      have h3 := pyEq_vstr_ne _ _ "transportation" h2 (by decide)
      cases ht : pyTruthy (pmapGetD ekvs "description" (vstr "")) <;>
        cases hm : td.extraActivities.any
          (fun x => pyEq (pmapGetD ekvs "description" (vstr "")) x) <;>
        simp [h1, h2, h3, ht, hm, insertAll, insertDistinct, anyPyEq]
    | false =>
      cases h3 : pyEq (pmapGetD ekvs "event_type" (vstr "")) (vstr "transportation") with
      | true =>
        cases ht : pyTruthy (pmapGetD ekvs "type" (vstr "")) <;>
          cases hm : td.transportationPreference.any
            (fun x => pyEq (pmapGetD ekvs "type" (vstr "")) x) <;>
          simp [h1, h2, h3, ht, hm, insertAll, insertDistinct, anyPyEq]
      | false => simp [h1, h2, h3, insertAll]

theorem filterMap_cons_append (f : PVal → Option PVal) (a : PVal) (l : List PVal) :
    List.filterMap f (a :: l) = List.filterMap f [a] ++ List.filterMap f l := by
  cases hf : f a <;> simp [List.filterMap_cons, hf]

theorem hotelRooms_cons (a : PVal) (l : List PVal) :
    hotelRoomsOfEvents (a :: l) = hotelRoomsOfEvents [a] ++ hotelRoomsOfEvents l :=
  filterMap_cons_append _ a l

theorem visitDescs_cons (a : PVal) (l : List PVal) :
    visitDescsOfEvents (a :: l) = visitDescsOfEvents [a] ++ visitDescsOfEvents l :=
  filterMap_cons_append _ a l

theorem transportTypes_cons (a : PVal) (l : List PVal) :
    transportTypesOfEvents (a :: l) = transportTypesOfEvents [a] ++ transportTypesOfEvents l :=
  filterMap_cons_append _ a l

theorem scanEvents_spec : ∀ (evs : List PVal) (td : TripData),
    (∀ ev ∈ evs, ∃ ekvs, ev = vdict ekvs) →
    scanEvents td evs = Except.ok
      { td with
        stayPreference := insertAll td.stayPreference (hotelRoomsOfEvents evs),
        extraActivities := insertAll td.extraActivities (visitDescsOfEvents evs),
        transportationPreference :=
          insertAll td.transportationPreference (transportTypesOfEvents evs) }
  | [], td, _ => by
    simp [scanEvents, hotelRoomsOfEvents, visitDescsOfEvents, transportTypesOfEvents,
      insertAll]
  | ev :: rest, td, h => by
    obtain ⟨ekvs, rfl⟩ := h ev (List.mem_cons_self _ _)
    have hrest : ∀ e ∈ rest, ∃ k, e = vdict k :=
      fun e he => h e (List.mem_cons_of_mem _ he)
    show scanEvents (stepEvent td ekvs) rest = _
    rw [scanEvents_spec rest (stepEvent td ekvs) hrest, stepEvent_char]
    rw [hotelRooms_cons (vdict ekvs) rest, visitDescs_cons (vdict ekvs) rest,
      transportTypes_cons (vdict ekvs) rest]
    rw [insertAll_append td.stayPreference (hotelRoomsOfEvents [vdict ekvs])
        (hotelRoomsOfEvents rest),
      insertAll_append td.extraActivities (visitDescsOfEvents [vdict ekvs])
        (visitDescsOfEvents rest),
      insertAll_append td.transportationPreference (transportTypesOfEvents [vdict ekvs])
        (transportTypesOfEvents rest)]

theorem scanDays_spec : ∀ (ds : List PVal) (td : TripData),
    (∀ day ∈ ds, GoodDay day) →
    scanDays td ds = Except.ok
      { td with
        stayPreference := insertAll td.stayPreference (rawStays ds),
        extraActivities := insertAll td.extraActivities (rawVisits ds),
        transportationPreference :=
          insertAll td.transportationPreference (rawTransports ds) }
  | [], td, _ => by simp [scanDays, rawStays, rawVisits, rawTransports, insertAll]
  | day :: rest, td, h => by
    obtain ⟨dkvs, evs, rfl, hiter, hdict⟩ := h day (List.mem_cons_self _ _)
    have hrest : ∀ d ∈ rest, GoodDay d := fun d hd => h d (List.mem_cons_of_mem _ hd)
    show (match iterSeq (pmapGetD dkvs "events" (vlist anil)) with
      | Except.ok evs => (match scanEvents td evs with
        | Except.ok td2 => scanDays td2 rest
        | Except.error e => Except.error e)
      | Except.error e => Except.error e) = _
    rw [hiter]
    have hde : dayEventsList (vdict dkvs) = evs := by
      simp [dayEventsList, hiter]
    dsimp only
    rw [scanEvents_spec evs td hdict]
    dsimp only
    rw [scanDays_spec rest _ hrest]
    simp only [rawStays, rawVisits, rawTransports, List.flatMap_cons, hde]
    rw [insertAll_append, insertAll_append, insertAll_append]

theorem insertAll_nil (l : List PVal) : insertAll [] l = pyDistinct l := by
  rw [insertAll_eq_aux]
  rfl

theorem pyTruthy_vdict_of_find (m : PMap) (k : String) (v : PVal)
    (h : pmapFind m k = some v) : pyTruthy (vdict m) = true := by
  cases m with
  | mnil => simp [pmapFind] at h
  | mcons k0 v0 t => rfl

/-- C6: itinerary extraction returns absent without raising when the
itinerary is missing or its day list is empty; on a well-shaped non-empty
day list it succeeds with a TripData whose stay_preference, extra_activities
and transportation_preference are, respectively, the non-empty
room_selection values of hotel-typed events, description values of
visit-typed events and type values of transportation-typed events, each
deduplicated to first occurrence in first-seen order (pyDistinct). -/
theorem extract_itinerary_spec (sid : String) (state : PMap) :
    (pmapFind state "itinerary" = none → extractItinerary true sid state = Except.ok none)
    ∧ (∀ ikvs, pmapFind state "itinerary" = some (vdict ikvs) →
        pmapFind ikvs "days" = some (vlist anil) →
        extractItinerary true sid state = Except.ok none)
    ∧ (∀ ikvs tkvs ds, pmapFind state "itinerary" = some (vdict ikvs) →
        pmapGetD ikvs "travelers" (vdict mnil) = vdict tkvs →
        pmapFind ikvs "days" = some (vlist (parrOf ds)) →
        ds ≠ [] →
        (∀ day ∈ ds, GoodDay day) →
        ∃ td, extractItinerary true sid state = Except.ok (some td)
          ∧ td.stayPreference = pyDistinct (rawStays ds)
          ∧ td.extraActivities = pyDistinct (rawVisits ds)
          ∧ td.transportationPreference = pyDistinct (rawTransports ds)) := by
  refine ⟨fun h => ?_, fun ikvs h1 h2 => ?_, fun ikvs tkvs ds h1 htrav h2 hne hgood => ?_⟩
  · simp [extractItinerary, pmapGetD, h, pyTruthy]
  · have htr : pyTruthy (vdict ikvs) = true := pyTruthy_vdict_of_find _ _ _ h2
    simp [extractItinerary, pmapGetD, h1, htr, h2, pyTruthy]
  · have htr : pyTruthy (vdict ikvs) = true := pyTruthy_vdict_of_find _ _ _ h2
    have hds : pyTruthy (vlist (parrOf ds)) = true := by
      cases ds with
      | nil => exact absurd rfl hne
      | cons a l => rfl
    have hdv : pmapGetD ikvs "days" (vlist anil) = vlist (parrOf ds) := by
      simp [pmapGetD, h2]
    have hdv2 : pmapGetD ikvs "days" vnone = vlist (parrOf ds) := by
      simp [pmapGetD, h2]
    have hconv : convertItineraryToTripData ikvs
        = Except.ok { baseTripData ikvs tkvs with
            stayPreference := pyDistinct (rawStays ds),
            extraActivities := pyDistinct (rawVisits ds),
            transportationPreference := pyDistinct (rawTransports ds) } := by
      unfold convertItineraryToTripData
      rw [htrav]
      try dsimp only
      rw [hdv, hds]
      simp only [if_true, iterSeq]
      rw [arrList_parrOf]
      try dsimp only
      rw [scanDays_spec ds _ hgood]
      show Except.ok _ = _
      simp [baseTripData, insertAll_nil]
    have hItin : pmapGetD state "itinerary" (vdict mnil) = vdict ikvs := by
      simp [pmapGetD, h1]
    refine ⟨{ baseTripData ikvs tkvs with
        stayPreference := pyDistinct (rawStays ds),
        extraActivities := pyDistinct (rawVisits ds),
        transportationPreference := pyDistinct (rawTransports ds) }, ?_, rfl, rfl, rfl⟩
    unfold extractItinerary
    rw [if_pos rfl, hItin]
    try dsimp only
    rw [htr]
    simp only [if_true]
    rw [hdv2, hds]
    simp only [if_true]
    rw [hconv]

/-- Example hotel event with room_selection Suite. -/
def exHotelEvent : PVal :=
  vdict (pmapOf [("event_type", vstr "hotel"), ("room_selection", vstr "Suite")])

/-- Example visit event with description Museum. -/
def exVisitEvent : PVal :=
  vdict (pmapOf [("event_type", vstr "visit"), ("description", vstr "Museum")])

/-- Example day one with a hotel and a visit event. -/
def exDay1 : PVal :=
  vdict (pmapOf [("events", vlist (parrOf [exHotelEvent, exVisitEvent]))])

/-- Example day two with no events. -/
def exDay2 : PVal := vdict (pmapOf [("events", vlist anil)])

/-- Example day list. -/
def exDays : List PVal := [exDay1, exDay2]

/-- Example itinerary dict. -/
def exItin : PMap := pmapOf [("days", vlist (parrOf exDays))]

/-- Example session state holding the itinerary. -/
def exState : PMap := pmapOf [("itinerary", vdict exItin)]

/-- C6 witness: on the two-day example of the specification, extraction
succeeds and the deduplicated preference lists evaluate to Suite, Museum and
no transport. -/
theorem extract_itinerary_spec_witness :
    (∃ td, extractItinerary true "s1" exState = Except.ok (some td)
      ∧ td.stayPreference = pyDistinct (rawStays exDays)
      ∧ td.extraActivities = pyDistinct (rawVisits exDays)
      ∧ td.transportationPreference = pyDistinct (rawTransports exDays))
    ∧ pyDistinct (rawStays exDays) = [vstr "Suite"]
    ∧ pyDistinct (rawVisits exDays) = [vstr "Museum"]
    ∧ pyDistinct (rawTransports exDays) = [] := by
  refine ⟨?_, rfl, rfl, rfl⟩
  refine (extract_itinerary_spec "s1" exState).2.2 exItin mnil exDays rfl rfl rfl
    (by simp [exDays]) ?_
  intro day hd
  rcases List.mem_cons.mp hd with rfl | hd2
  · exact ⟨pmapOf [("events", vlist (parrOf [exHotelEvent, exVisitEvent]))],
      [exHotelEvent, exVisitEvent], rfl, rfl, by
        intro ev he
        rcases List.mem_cons.mp he with rfl | he2
        · exact ⟨_, rfl⟩
        · rcases List.mem_cons.mp he2 with rfl | he3
          · exact ⟨_, rfl⟩
          · cases he3⟩
  · rcases List.mem_cons.mp hd2 with rfl | hd3
    · exact ⟨pmapOf [("events", vlist anil)], [], rfl, rfl, by intro ev he; cases he⟩
    · cases hd3
